import Mathlib

/-!
Shallow embedding of the message-relay core of the `tauri-app` repository
(`src-tauri/src/websocket.rs` and `src-tauri/src/deepFaceProcess.rs`),
together with proofs settling the frozen claims about it.

Conventions of the embedding:
* serde_json values are the inductive `Json`; serde_json serializes a Rust
  `Option` that is `None` as `Json.null` (no field skipping is configured
  anywhere in the sources).
* u64 machine integers are `Nat` reduced modulo `U64_MOD = 2 ^ 64` wherever
  the Rust operation wraps (`AtomicU64.fetch_add`).
* Fallible Rust code returning `Result<T, String>` becomes
  `Except String T`; side effects that the claims talk about (frames sent,
  processes spawned) are returned explicitly.
* Debug printing and Tauri event emission (`emit_cep_status`) are
  fire-and-forget diagnostics with no influence on the relay state and are
  not modelled.
-/

namespace TauriApp

mutual

/-- serde_json's `Value` type: JSON values.  Objects keep their fields as an
ordered association list, as serde_json produces them.  (Lists are a mutual
inductive rather than `List` so that equality stays decidable.) -/
inductive Json where
  | null : Json
  | bool (b : Bool) : Json
  | num (n : Int) : Json
  | str (s : String) : Json
  | arr (elems : JsonList) : Json
  | obj (fields : JsonFields) : Json
deriving DecidableEq, Repr

/-- A list of JSON values (array elements). -/
inductive JsonList where
  | nil : JsonList
  | cons (hd : Json) (tl : JsonList) : JsonList
deriving DecidableEq, Repr

/-- An ordered JSON object field list. -/
inductive JsonFields where
  | nil : JsonFields
  | cons (key : String) (val : Json) (tl : JsonFields) : JsonFields
deriving DecidableEq, Repr

end

/-- Build a `JsonList` from a list literal. -/
def jlOf : List Json → JsonList
  | [] => JsonList.nil
  | x :: xs => JsonList.cons x (jlOf xs)

/-- Build a `JsonFields` from a list literal of key/value pairs. -/
def jfOf : List (String × Json) → JsonFields
  | [] => JsonFields.nil
  | (k, v) :: xs => JsonFields.cons k v (jfOf xs)

/-- Build a JSON object from a key/value list literal (the shape produced by
serde_json's object literals). -/
def Json.mkObj (fields : List (String × Json)) : Json :=
  Json.obj (jfOf fields)

/-- Look a key up in an object's field list (first occurrence wins). -/
def findField : JsonFields → String → Option Json
  | JsonFields.nil, _ => none
  | JsonFields.cons k v rest, key => if k = key then some v else findField rest key

/-- Key lookup on a JSON value: `none` unless the value is an object that
carries the key. -/
def Json.lookup (j : Json) (key : String) : Option Json :=
  match j with
  | Json.obj fields => findField fields key
  | _ => none

/-- Field names of a JSON object field list. -/
def fieldKeys : JsonFields → List String
  | JsonFields.nil => []
  | JsonFields.cons k _ rest => k :: fieldKeys rest

/-- Field names of a JSON object (empty for non-objects). -/
def Json.keys : Json → List String
  | Json.obj fields => fieldKeys fields
  | _ => []

/-- Modulus of the 64-bit unsigned machine integers (`u64`). -/
def U64_MOD : Nat := 2 ^ 64

/-! ## websocket.rs: constants and envelope types -/

/-- `websocket.rs`: listening port. -/
def WS_PORT : Nat := 8080

/-- `websocket.rs`: listening host. -/
def WS_HOST : String := "127.0.0.1"

/-- `websocket.rs`: maximum number of concurrently permitted connections
(the semaphore's permit count). -/
def MAX_CONNECTIONS : Nat := 1

/-- `struct WsRequest`: generic request from the client, deserialized with
serde in camelCase (`requestId`, `command`, `payload`). -/
structure WsRequest where
  request_id : Option Nat
  command : String
  payload : Json
deriving DecidableEq, Repr

/-- `struct WsResponse`: generic reply sent back to clients, serialized with
serde in camelCase. -/
structure WsResponse where
  request_id : Option Nat
  status : String
  command : String
  data : Json
deriving DecidableEq, Repr

/-- serde's deserializer for an `Option<u64>` struct field: an absent field
and an explicit `null` both give `None`; a non-negative number below
`2 ^ 64` gives `Some`; anything else is a deserialization error. -/
def parseOptU64 : Option Json → Option (Option Nat)
  | none => some none
  | some Json.null => some none
  | some (Json.num n) =>
      if 0 ≤ n ∧ n < (U64_MOD : Int) then some (some n.toNat) else none
  | some _ => none

/-- serde_json's `from_str::<WsRequest>` after the text has lexed to a JSON
value: the value must be an object, `command` must be a string, `payload`
must be present (any value), and `requestId` is an optional `u64`.  Unknown
extra fields are ignored (serde's default). -/
def wsRequestFromJson : Json → Option WsRequest
  | Json.obj fields =>
      match parseOptU64 (findField fields "requestId"),
            findField fields "command", findField fields "payload" with
      | some rid, some (Json.str c), some p =>
          some { request_id := rid, command := c, payload := p }
      | _, _, _ => none
  | _ => none

/-- A text frame's bytes either lex to a JSON value or not (`none` models a
string serde_json cannot lex at all); the full `from_str::<WsRequest>` is
the composition with `wsRequestFromJson`. -/
def parseWsRequest (content : Option Json) : Option WsRequest :=
  content.bind wsRequestFromJson

/-- serde serialization of `WsResponse` (camelCase; a `None` request id
serializes as JSON `null`, since no skip attribute is configured). -/
def wsResponseToJson (r : WsResponse) : Json :=
  Json.mkObj [("requestId", match r.request_id with
                            | none => Json.null
                            | some n => Json.num n),
              ("status", Json.str r.status),
              ("command", Json.str r.command),
              ("data", r.data)]

/-! ## websocket.rs: fixed replies -/

/-- `handle_connection`: the greeting frame `hello` sent unconditionally on
entering the active state. -/
def helloReply : Json :=
  Json.mkObj [("status", Json.str "ok"),
              ("message", Json.str "Connected to Rust WS server")]

/-- `handle_connection`: the reply sent when a text frame fails to parse as
a `WsRequest`. -/
def invalidJsonReply : Json :=
  Json.mkObj [("status", Json.str "error"),
              ("message", Json.str "Invalid JSON")]

/-- `reject_connection_busy`: the `busy` message sent to a client rejected
for lack of a permit. -/
def busyReply : Json :=
  Json.mkObj [("status", Json.str "error"),
              ("message", Json.str "Server busy: too many connections")]

/-! ## websocket.rs: command dispatch -/

/-- `handle_command`: the central command dispatcher.  Every parseable
request produces exactly one `WsResponse`; the request id is echoed in
every branch, and unmatched commands get a `status:"error"` response with
message "Unknown command". -/
def handle_command (req : WsRequest) : WsResponse :=
  match req.command with
  | "test_server_connection" =>
      { request_id := req.request_id, status := "ok",
        command := req.command, data := Json.str "Server is alive!" }
  | "fetch_JSON" =>
      { request_id := req.request_id, status := "ok",
        command := req.command, data := req.payload }
  | "fetch_deepFaceCameraEmotionList" =>
      { request_id := req.request_id, status := "ok",
        command := req.command,
        data := Json.arr (jlOf [Json.str "happy", Json.str "sad", Json.str "angry"]) }
  | other =>
      { request_id := req.request_id, status := "error",
        command := other,
        data := Json.mkObj [("message", Json.str "Unknown command")] }

/-! ## websocket.rs: per-connection read loop -/

/-- Frames the relay can read from a client (tungstenite `Message`).  A text
frame carries the lexing result of its bytes. -/
inductive WsFrame where
  | text (content : Option Json) : WsFrame
  | close : WsFrame
  | ping : WsFrame
  | pong : WsFrame
  | binary : WsFrame
deriving DecidableEq, Repr

/-- `handle_connection`'s read loop, run on the sequence of frames read from
the client; returns the JSON texts written back.  Text frames are parsed and
answered (an unparseable one gets `invalidJsonReply` and the loop
continues); a close frame ends the loop; ping/pong/binary are ignored. -/
def connectionLoop : List WsFrame → List Json
  | [] => []
  | WsFrame.text content :: rest =>
      match parseWsRequest content with
      | some req => wsResponseToJson (handle_command req) :: connectionLoop rest
      | none => invalidJsonReply :: connectionLoop rest
  | WsFrame.close :: _ => []
  | WsFrame.ping :: rest => connectionLoop rest
  | WsFrame.pong :: rest => connectionLoop rest
  | WsFrame.binary :: rest => connectionLoop rest

/-- `handle_connection`: greeting first, then the read loop. -/
def handle_connection (frames : List WsFrame) : List Json :=
  helloReply :: connectionLoop frames

/-! ## websocket.rs: connection admission (the semaphore) -/

/-- Frames the relay writes to one client, including the explicit close
frame of the busy path. -/
inductive SentFrame where
  | text (j : Json) : SentFrame
  | closeFrame : SentFrame
deriving DecidableEq, Repr

/-- `Semaphore::try_acquire_owned` on a semaphore created with
`MAX_CONNECTIONS` permits, of which `active` are currently held: succeeds
with the incremented count exactly when a permit is free, and is
non-blocking otherwise. -/
def try_acquire (active : Nat) : Option Nat :=
  if active < MAX_CONNECTIONS then some (active + 1) else none

/-- `reject_connection_busy`: the frames written to a rejected client, in
order — one busy text frame, then a close frame. -/
def reject_connection_busy : List SentFrame :=
  [SentFrame.text busyReply, SentFrame.closeFrame]

/-- The accept-loop body after a successful WebSocket handshake: try to
acquire a permit; with a permit the connection is handled (greeting first,
then the loop's replies) while the permit is held; without one the busy
rejection is written and no permit is ever held.  Returns the permit count
during the connection's handling and the frames written to this client. -/
def admitConnection (active : Nat) (frames : List WsFrame) : Nat × List SentFrame :=
  match try_acquire active with
  | some active2 => (active2, (handle_connection frames).map SentFrame.text)
  | none => (active, reject_connection_busy)

/-- Permit-count events over the server's lifetime: a handshake-complete
connection attempt (which tries to acquire), or the teardown of a permitted
connection handler (which drops its `OwnedSemaphorePermit`). -/
inductive ServerEvent where
  | attempt : ServerEvent
  | disconnect : ServerEvent
deriving DecidableEq, Repr

/-- Evolution of the held-permit count under one event. -/
def stepActive (active : Nat) : ServerEvent → Nat
  | ServerEvent.attempt =>
      match try_acquire active with
      | some active2 => active2
      | none => active
  | ServerEvent.disconnect => active - 1

/-- Held-permit count after a sequence of events, starting from an idle
server (no permits held). -/
def activeAfter (events : List ServerEvent) : Nat :=
  events.foldl stepActive 0

/-! ## deepFaceProcess.rs: worker supervisor state -/

/-- Global state of `deepFaceProcess.rs`: the two `OnceCell` globals and the
request counter, plus a count of worker processes spawned so far (an effect
the claims talk about).  `processCell = none` is an unset
`DEEPFACE_PROCESS`; `some inner` is the set cell whose `Mutex<Option<Child>>`
holds `inner`. -/
structure DFState where
  processCell : Option (Option Unit)
  wsClient : Option Unit
  counter : Nat
  spawned : Nat
deriving DecidableEq, Repr

/-- State at process startup: both `OnceCell`s unset and
`REQUEST_COUNTER` initialized to 1. -/
def dfInitial : DFState :=
  { processCell := none, wsClient := none, counter := 1, spawned := 0 }

/-- Whether a worker child process is actually held (the cell is set and its
inner `Option<Child>` is `Some`). -/
def workerRunning (s : DFState) : Bool :=
  match s.processCell with
  | some (some _) => true
  | _ => false

/-- `OnceCell::set(..).ok()`: stores the value only if the cell is unset;
a second set is silently discarded. -/
def onceCellSet {A : Type} (cell : Option A) (v : A) : Option A :=
  match cell with
  | some old => some old
  | none => some v

/-- Environment of one `start_deepface_server` call: which of its fallible
external steps succeed (process spawn, readiness marker within the 60s
timeout, WebSocket connect). -/
structure StartEnv where
  spawnOk : Bool
  readyInTime : Bool
  connectOk : Bool
deriving DecidableEq, Repr

/-- `start_deepface_server`: errors when `DEEPFACE_PROCESS` is already set;
otherwise spawns the worker, stores the handle, waits for readiness, then
connects the worker WebSocket and stores it.  Error strings are the
constant parts of the source's `format!` messages. -/
def start_deepface_server (env : StartEnv) (s : DFState) :
    Except String Unit × DFState :=
  if s.processCell.isSome then
    (Except.error "DeepFace server already started", s)
  else if !env.spawnOk then
    (Except.error "Failed to start deepface_cli", s)
  else
    let s1 := { s with spawned := s.spawned + 1,
                       processCell := onceCellSet s.processCell (some ()) }
    if !env.readyInTime then
      (Except.error "Timeout waiting for DeepFace to start", s1)
    else if !env.connectOk then
      (Except.error "Failed to connect WS", s1)
    else
      (Except.ok (), { s1 with wsClient := onceCellSet s1.wsClient () })

/-- `stop_deepface_server`: a no-op unless the cell is set and holds a
child; then kills the child and clears the inner handle (the `OnceCell`
itself stays set).  `killOk` is whether `child.kill()` succeeds. -/
def stop_deepface_server (killOk : Bool) (s : DFState) :
    Except String Unit × DFState :=
  match s.processCell with
  | none => (Except.ok (), s)
  | some none => (Except.ok (), s)
  | some (some _) =>
      if killOk then (Except.ok (), { s with processCell := some none })
      else (Except.error "Failed to kill deepface_cli", s)

/-! ## deepFaceProcess.rs: worker protocol client -/

/-- `next_request_id`: `REQUEST_COUNTER.fetch_add(1, SeqCst)` — returns the
current counter and stores its wrapping u64 successor. -/
def next_request_id (c : Nat) : Nat × Nat :=
  (c, (c + 1) % U64_MOD)

/-- What awaiting the worker's reply yields in `send_request`: a text frame
(whose bytes lex to JSON or not), some other frame kind, a transport error,
or a closed stream. -/
inductive WorkerReply where
  | textReply (content : Option Json) : WorkerReply
  | otherFrame : WorkerReply
  | transportError (e : String) : WorkerReply
  | streamEnded : WorkerReply
deriving DecidableEq, Repr

/-- Environment of one `send_request` call: whether the send succeeds and
what awaiting the reply yields. -/
structure CallEnv where
  sendOk : Bool
  reply : WorkerReply
deriving DecidableEq, Repr

/-- `send_request`: errors with "DeepFace WS not started" when `WS_CLIENT`
is unset, sending nothing; otherwise sends the request as one text frame
and awaits exactly one reply.  Returns the call's result and the list of
messages handed to the worker link's send.  Error strings are the constant
parts of the source's formatted messages. -/
def send_request (env : CallEnv) (req : Json) (s : DFState) :
    Except String Json × List Json :=
  match s.wsClient with
  | none => (Except.error "DeepFace WS not started", [])
  | some _ =>
      if !env.sendOk then (Except.error "WS send failed", [req])
      else
        match env.reply with
        | WorkerReply.textReply (some v) => (Except.ok v, [req])
        | WorkerReply.textReply none => (Except.error "worker reply JSON parse error", [req])
        | WorkerReply.otherFrame => (Except.error "Unexpected WS message", [req])
        | WorkerReply.transportError e => (Except.error ("WS error: " ++ e), [req])
        | WorkerReply.streamEnded => (Except.error "No response from DeepFace", [req])

/-- serde_json's `to_value` of a Rust `Option<String>` inside a `json!`
literal: `None` becomes JSON `null`, `Some v` the string. -/
def optStringToJson : Option String → Json
  | none => Json.null
  | some v => Json.str v

/-- The `json!` body built by `analyze_deepface` (field order as written). -/
def analyze_request (id : Nat) (frame actions : String)
    (detector model : Option String) : Json :=
  Json.mkObj [("requestId", Json.num id),
              ("cmd", Json.str "analyze"),
              ("frame", Json.str frame),
              ("actions", Json.str actions),
              ("detector", optStringToJson detector),
              ("model", optStringToJson model)]

/-- The `json!` body built by `verify_deepface`. -/
def verify_request (id : Nat) (img1 img2 : String)
    (detector model : Option String) : Json :=
  Json.mkObj [("requestId", Json.num id),
              ("cmd", Json.str "verify"),
              ("img1", Json.str img1),
              ("img2", Json.str img2),
              ("detector", optStringToJson detector),
              ("model", optStringToJson model)]

/-- The `json!` body built by `detect_deepface`. -/
def detect_request (id : Nat) (frame : String) (detector : Option String) : Json :=
  Json.mkObj [("requestId", Json.num id),
              ("cmd", Json.str "detect"),
              ("frame", Json.str frame),
              ("detector", optStringToJson detector)]

/-- `analyze_deepface`: draws a fresh request id, builds the request, and
delegates to `send_request`.  Returns the result, the messages sent to the
worker, and the updated state. -/
def analyze_deepface (env : CallEnv) (frame actions : String)
    (detector model : Option String) (s : DFState) :
    (Except String Json × List Json) × DFState :=
  let idc := next_request_id s.counter
  let s2 := { s with counter := idc.2 }
  (send_request env (analyze_request idc.1 frame actions detector model) s2, s2)

/-- `verify_deepface`: as `analyze_deepface`, for the verify command. -/
def verify_deepface (env : CallEnv) (img1 img2 : String)
    (detector model : Option String) (s : DFState) :
    (Except String Json × List Json) × DFState :=
  let idc := next_request_id s.counter
  let s2 := { s with counter := idc.2 }
  (send_request env (verify_request idc.1 img1 img2 detector model) s2, s2)

/-- `detect_deepface`: as `analyze_deepface`, for the detect command. -/
def detect_deepface (env : CallEnv) (frame : String)
    (detector : Option String) (s : DFState) :
    (Except String Json × List Json) × DFState :=
  let idc := next_request_id s.counter
  let s2 := { s with counter := idc.2 }
  (send_request env (detect_request idc.1 frame detector) s2, s2)

/-! ## deepFaceProcess.rs: request-id traces across the command builders -/

/-- One invocation of a command builder, with its arguments. -/
inductive DFCommand where
  | analyzeCmd (frame actions : String) (detector model : Option String) : DFCommand
  | verifyCmd (img1 img2 : String) (detector model : Option String) : DFCommand
  | detectCmd (frame : String) (detector : Option String) : DFCommand
deriving DecidableEq, Repr

/-- The worker request a builder invocation constructs from counter value
`c`, together with the counter it leaves behind — each builder draws its id
from the same shared `REQUEST_COUNTER`. -/
def buildRequest (c : Nat) : DFCommand → Json × Nat
  | DFCommand.analyzeCmd frame actions detector model =>
      (analyze_request (next_request_id c).1 frame actions detector model,
       (next_request_id c).2)
  | DFCommand.verifyCmd img1 img2 detector model =>
      (verify_request (next_request_id c).1 img1 img2 detector model,
       (next_request_id c).2)
  | DFCommand.detectCmd frame detector =>
      (detect_request (next_request_id c).1 frame detector,
       (next_request_id c).2)

/-- The `requestId` field carried by a worker request (0 if malformed —
never the case for built requests). -/
def requestIdNat (j : Json) : Nat :=
  match Json.lookup j "requestId" with
  | some (Json.num n) => n.toNat
  | _ => 0

/-- The request identifiers assigned to a sequence of builder invocations,
threading the shared counter from `c`. -/
def assignedIds : List DFCommand → Nat → List Nat
  | [], _ => []
  | cmd :: rest, c =>
      requestIdNat (buildRequest c cmd).1 :: assignedIds rest (buildRequest c cmd).2

/-! ## Theorems -/

/-- C5: every request whose command matches no dispatch-table entry gets a
well-formed response with status "error", the input command echoed, and
data carrying the message "Unknown command" — dispatch is total and never
fails outright. -/
theorem unknown_command_response (req : WsRequest)
    (h1 : req.command ≠ "test_server_connection")
    (h2 : req.command ≠ "fetch_JSON")
    (h3 : req.command ≠ "fetch_deepFaceCameraEmotionList") :
    handle_command req =
      { request_id := req.request_id, status := "error", command := req.command,
        data := Json.mkObj [("message", Json.str "Unknown command")] } := by
  unfold handle_command
  split
  all_goals simp_all

theorem unknown_command_response_witness :
    handle_command { request_id := some 5, command := "frobnicate", payload := Json.null } =
      { request_id := some 5, status := "error", command := "frobnicate",
        data := Json.mkObj [("message", Json.str "Unknown command")] } :=
  unknown_command_response
    { request_id := some 5, command := "frobnicate", payload := Json.null }
    (by decide) (by decide) (by decide)

/-- C6: a text frame that fails to parse as a request envelope gets the
"Invalid JSON" error reply, and the read loop continues on the remaining
frames — malformed input never terminates the session. -/
theorem invalid_json_keeps_session (content : Option Json) (rest : List WsFrame)
    (h : parseWsRequest content = none) :
    connectionLoop (WsFrame.text content :: rest) =
      invalidJsonReply :: connectionLoop rest := by
  simp only [connectionLoop, h]

theorem invalid_json_keeps_session_witness :
    parseWsRequest (some (Json.num 3)) = none ∧
    connectionLoop [WsFrame.text (some (Json.num 3)), WsFrame.ping] =
      invalidJsonReply :: connectionLoop [WsFrame.ping] :=
  ⟨rfl, invalid_json_keeps_session (some (Json.num 3)) [WsFrame.ping] rfl⟩

/-- C9: the invalid-JSON reply and the busy rejection message are bare
status/message objects: their only keys are `status` and `message`, and
they carry no `requestId`, `command` or `data` field. -/
theorem error_replies_are_bare :
    Json.keys invalidJsonReply = ["status", "message"] ∧
    Json.keys busyReply = ["status", "message"] ∧
    Json.lookup invalidJsonReply "status" = some (Json.str "error") ∧
    Json.lookup invalidJsonReply "message" = some (Json.str "Invalid JSON") ∧
    Json.lookup busyReply "status" = some (Json.str "error") ∧
    Json.lookup busyReply "message" =
      some (Json.str "Server busy: too many connections") ∧
    Json.lookup invalidJsonReply "requestId" = none ∧
    Json.lookup invalidJsonReply "command" = none ∧
    Json.lookup invalidJsonReply "data" = none ∧
    Json.lookup busyReply "requestId" = none ∧
    Json.lookup busyReply "command" = none ∧
    Json.lookup busyReply "data" = none := by
  decide

/-- C2 (counterexample): with the optional arguments absent, the built
worker requests still carry a `detector`/`model` field — `json!` serializes
a Rust `None` as JSON `null`, so the field is present, not absent. -/
theorem optional_fields_present_when_absent :
    Json.lookup (analyze_request 1 "frame.png" "emotion" none none) "detector" ≠ none ∧
    Json.lookup (analyze_request 1 "frame.png" "emotion" none none) "model" ≠ none ∧
    Json.lookup (verify_request 2 "a.png" "b.png" none none) "detector" ≠ none ∧
    Json.lookup (verify_request 2 "a.png" "b.png" none none) "model" ≠ none ∧
    Json.lookup (detect_request 3 "frame.png" none) "detector" ≠ none := by
  decide

/-- C2 (amended): the optional `detector`/`model` arguments are passed
through exactly — a present value as its string, an absent one as JSON
`null`; this layer never substitutes a default or placeholder value. -/
theorem optional_fields_null_pass_through (id : Nat) (frame actions img1 img2 : String)
    (detector model : Option String) :
    Json.lookup (analyze_request id frame actions detector model) "detector" =
      some (optStringToJson detector) ∧
    Json.lookup (analyze_request id frame actions detector model) "model" =
      some (optStringToJson model) ∧
    Json.lookup (verify_request id img1 img2 detector model) "detector" =
      some (optStringToJson detector) ∧
    Json.lookup (verify_request id img1 img2 detector model) "model" =
      some (optStringToJson model) ∧
    Json.lookup (detect_request id frame detector) "detector" =
      some (optStringToJson detector) := by
  refine ⟨?_, ?_, ?_, ?_, ?_⟩ <;> rfl

/-- C4: the response's request id always equals the request's request id —
every dispatch branch echoes it untouched — and a request whose `requestId`
is absent or explicitly `null` parses to an envelope with no request id, so
the echo covers those cases too. -/
theorem requestId_roundtrip (req : WsRequest) :
    (handle_command req).request_id = req.request_id ∧
    (∀ fields r, wsRequestFromJson (Json.obj fields) = some r →
       (findField fields "requestId" = none ∨
        findField fields "requestId" = some Json.null) →
       r.request_id = none) := by
  constructor
  · unfold handle_command
    split <;> rfl
  · intro fields r hparse hnull
    have hrid : parseOptU64 (findField fields "requestId") = some none := by
      rcases hnull with h | h <;> rw [h] <;> rfl
    rw [wsRequestFromJson] at hparse
    rw [hrid] at hparse
    split at hparse
    · rename_i rid c p heq hc hp
      cases heq
      cases hparse
      rfl
    · exact absurd hparse (by simp)

theorem requestId_roundtrip_witness :
    (handle_command { request_id := none, command := "fetch_JSON",
                      payload := Json.num 1 }).request_id = none ∧
    ∀ r, wsRequestFromJson
        (Json.mkObj [("requestId", Json.null), ("command", Json.str "fetch_JSON"),
                     ("payload", Json.num 1)]) = some r →
      r.request_id = none :=
  ⟨(requestId_roundtrip
      { request_id := none, command := "fetch_JSON", payload := Json.num 1 }).1,
   fun r hr =>
     (requestId_roundtrip r).2
       (jfOf [("requestId", Json.null), ("command", Json.str "fetch_JSON"),
              ("payload", Json.num 1)]) r hr (Or.inr rfl)⟩

/-- C1: the held-permit count never exceeds `MAX_CONNECTIONS` under any
sequence of connection events, and a handshake-complete attempt arriving
with no free permit is answered with exactly one busy text frame followed
by a close frame, never receives the greeting, and leaves the permit count
unchanged (it holds no permit). -/
theorem connection_bound_and_busy :
    (∀ events : List ServerEvent, activeAfter events ≤ MAX_CONNECTIONS) ∧
    (∀ (active : Nat) (frames : List WsFrame), ¬ active < MAX_CONNECTIONS →
      admitConnection active frames =
        (active, [SentFrame.text busyReply, SentFrame.closeFrame]) ∧
      SentFrame.text helloReply ∉ (admitConnection active frames).2 ∧
      stepActive active ServerEvent.attempt = active) := by
  constructor
  · intro events
    have key : ∀ (l : List ServerEvent) (a : Nat), a ≤ MAX_CONNECTIONS →
        l.foldl stepActive a ≤ MAX_CONNECTIONS := by
      intro l
      induction l with
      | nil => intro a ha; simpa using ha
      | cons e rest ih =>
          intro a ha
          refine ih _ ?_
          cases e with
          | attempt =>
              simp only [stepActive, try_acquire]
              by_cases hlt : a < MAX_CONNECTIONS
              · simp only [hlt, if_true]; omega
              · simp only [hlt, if_false]; exact ha
          | disconnect =>
              simp only [stepActive]; omega
    exact key events 0 (Nat.zero_le _)
  · intro active frames h
    have hta : try_acquire active = none := by simp [try_acquire, h]
    refine ⟨?_, ?_, ?_⟩
    · simp [admitConnection, hta, reject_connection_busy]
    · simp only [admitConnection, hta, reject_connection_busy]
      decide
    · simp [stepActive, hta]

theorem connection_bound_and_busy_witness :
    admitConnection 1 [] = (1, [SentFrame.text busyReply, SentFrame.closeFrame]) ∧
    SentFrame.text helloReply ∉ (admitConnection 1 []).2 ∧
    stepActive 1 ServerEvent.attempt = 1 :=
  connection_bound_and_busy.2 1 [] (by decide)

/-- C7: once a start has succeeded, a second `start_deepface_server`
without an intervening stop returns the already-running error and leaves
the state untouched — no second worker process is spawned and at most one
process handle exists. -/
theorem second_start_rejected (env1 env2 : StartEnv) (s0 s1 : DFState)
    (h : start_deepface_server env1 s0 = (Except.ok (), s1)) :
    start_deepface_server env2 s1 =
      (Except.error "DeepFace server already started", s1) := by
  have hset : s1.processCell.isSome = true := by
    unfold start_deepface_server at h
    split at h
    · exact absurd h (by simp)
    · split at h
      · exact absurd h (by simp)
      · split at h
        · exact absurd h (by simp)
        · split at h
          · exact absurd h (by simp)
          · have := congrArg Prod.snd h
            simp only at this
            rw [← this]
            cases hc : s0.processCell <;> simp [onceCellSet, hc]
  unfold start_deepface_server
  simp [hset]

theorem second_start_rejected_witness :
    start_deepface_server { spawnOk := true, readyInTime := true, connectOk := true }
        { processCell := some (some ()), wsClient := some (), counter := 1, spawned := 1 } =
      (Except.error "DeepFace server already started",
       { processCell := some (some ()), wsClient := some (), counter := 1, spawned := 1 }) :=
  second_start_rejected
    { spawnOk := true, readyInTime := true, connectOk := true }
    { spawnOk := true, readyInTime := true, connectOk := true }
    dfInitial
    { processCell := some (some ()), wsClient := some (), counter := 1, spawned := 1 }
    rfl

/-- C3 (code bug): after a successful start followed by a successful stop —
which kills the worker and clears the stored child handle — a further start
still fails with "DeepFace server already started", because the start guard
tests whether the `DEEPFACE_PROCESS` `OnceCell` was ever initialized rather
than whether it currently holds a child. -/
theorem restart_after_stop_rejected :
    (start_deepface_server { spawnOk := true, readyInTime := true, connectOk := true }
        dfInitial).1 = Except.ok () ∧
    (stop_deepface_server true
        (start_deepface_server { spawnOk := true, readyInTime := true, connectOk := true }
          dfInitial).2).1 = Except.ok () ∧
    workerRunning
        (stop_deepface_server true
          (start_deepface_server { spawnOk := true, readyInTime := true, connectOk := true }
            dfInitial).2).2 = false ∧
    (start_deepface_server { spawnOk := true, readyInTime := true, connectOk := true }
        (stop_deepface_server true
          (start_deepface_server { spawnOk := true, readyInTime := true, connectOk := true }
            dfInitial).2).2).1 =
      Except.error "DeepFace server already started" := by
  refine ⟨rfl, rfl, rfl, rfl⟩

/-- C10: calling any of the three command builders while the worker link is
unset returns the error "DeepFace WS not started" and hands nothing to any
worker; the call is total (no panic). -/
theorem commands_fail_before_start (env : CallEnv) (s : DFState)
    (frame actions img1 img2 : String) (detector model : Option String)
    (h : s.wsClient = none) :
    (analyze_deepface env frame actions detector model s).1 =
      (Except.error "DeepFace WS not started", []) ∧
    (verify_deepface env img1 img2 detector model s).1 =
      (Except.error "DeepFace WS not started", []) ∧
    (detect_deepface env frame detector s).1 =
      (Except.error "DeepFace WS not started", []) := by
  refine ⟨?_, ?_, ?_⟩ <;>
    simp [analyze_deepface, verify_deepface, detect_deepface, send_request, h]

theorem commands_fail_before_start_witness :
    (analyze_deepface { sendOk := true, reply := WorkerReply.streamEnded }
        "f.png" "emotion" none none dfInitial).1 =
      (Except.error "DeepFace WS not started", []) ∧
    (verify_deepface { sendOk := true, reply := WorkerReply.streamEnded }
        "a.png" "b.png" none none dfInitial).1 =
      (Except.error "DeepFace WS not started", []) ∧
    (detect_deepface { sendOk := true, reply := WorkerReply.streamEnded }
        "f.png" none dfInitial).1 =
      (Except.error "DeepFace WS not started", []) :=
  commands_fail_before_start
    { sendOk := true, reply := WorkerReply.streamEnded }
    dfInitial "f.png" "emotion" "a.png" "b.png" none none rfl

/-- Every builder stamps its request with the current shared counter value. -/
theorem buildRequest_requestId (c : Nat) (cmd : DFCommand) :
    requestIdNat (buildRequest c cmd).1 = c := by
  cases cmd <;>
    simp [buildRequest, requestIdNat, analyze_request, verify_request, detect_request,
          Json.mkObj, Json.lookup, jfOf, findField, next_request_id]

/-- Every builder advances the shared counter to its wrapping successor. -/
theorem buildRequest_counter (c : Nat) (cmd : DFCommand) :
    (buildRequest c cmd).2 = (c + 1) % U64_MOD := by
  cases cmd <;> rfl

theorem assignedIds_length (cmds : List DFCommand) :
    ∀ c, (assignedIds cmds c).length = cmds.length := by
  induction cmds with
  | nil => intro c; rfl
  | cons cmd rest ih => intro c; simp [assignedIds, ih]

theorem uMod_pos : 0 < U64_MOD := by norm_num [U64_MOD]

/-- Closed form of the id trace: starting from counter `c < 2 ^ 64`, the
`i`-th builder call (whatever its command) is stamped `(c + i) % 2 ^ 64`. -/
theorem assignedIds_closed (cmds : List DFCommand) :
    ∀ c, c < U64_MOD →
      assignedIds cmds c = (List.range cmds.length).map (fun i => (c + i) % U64_MOD) := by
  induction cmds with
  | nil => intro c hc; rfl
  | cons cmd rest ih =>
      intro c hc
      rw [assignedIds, buildRequest_requestId, buildRequest_counter,
          ih ((c + 1) % U64_MOD) (Nat.mod_lt _ uMod_pos),
          List.length_cons, List.range_succ_eq_map, List.map_cons, List.map_map]
      refine congrArg₂ List.cons ?_ ?_
      · simp [Nat.mod_eq_of_lt hc]
      · refine List.map_congr_left ?_
        intro i hi
        simp only [Function.comp_apply]
        rw [Nat.mod_add_mod, Nat.add_assoc, Nat.add_comm 1 i]

/-- C8 (amended): across any sequence of builder calls — whichever command
each one is — the assigned request identifiers start at 1 and are strictly
increasing as long as the u64 counter has not wrapped, i.e. among the first
`2 ^ 64 - 1` assignments. -/
theorem request_ids_increasing (cmds : List DFCommand) :
    (∀ cmd rest, cmds = cmd :: rest → (assignedIds cmds 1).head? = some 1) ∧
    (∀ j k : Nat, j < k → k < cmds.length → k < U64_MOD - 1 →
      ∃ a b, (assignedIds cmds 1).get? j = some a ∧
        (assignedIds cmds 1).get? k = some b ∧ a < b) := by
  have h1 : (1 : Nat) < U64_MOD := by norm_num [U64_MOD]
  have hcl := assignedIds_closed cmds 1 h1
  constructor
  · intro cmd rest heq
    subst heq
    simp [assignedIds, buildRequest_requestId]
  · intro j k hjk hk hkM
    rw [hcl]
    have hj : j < cmds.length := lt_trans hjk hk
    refine ⟨(1 + j) % U64_MOD, (1 + k) % U64_MOD, ?_, ?_, ?_⟩
    · rw [List.get?_map, List.get?_range hj]; rfl
    · rw [List.get?_map, List.get?_range hk]; rfl
    · have hkm : 1 + k < U64_MOD := by omega
      have hjm : 1 + j < U64_MOD := by omega
      rw [Nat.mod_eq_of_lt hjm, Nat.mod_eq_of_lt hkm]
      omega

theorem request_ids_increasing_witness :
    (assignedIds [DFCommand.detectCmd "f.png" none,
       DFCommand.analyzeCmd "f.png" "emotion" none none] 1).head? = some 1 ∧
    ∃ a b,
      (assignedIds [DFCommand.detectCmd "f.png" none,
         DFCommand.analyzeCmd "f.png" "emotion" none none] 1).get? 0 = some a ∧
      (assignedIds [DFCommand.detectCmd "f.png" none,
         DFCommand.analyzeCmd "f.png" "emotion" none none] 1).get? 1 = some b ∧
      a < b :=
  ⟨(request_ids_increasing _).1 _ _ rfl,
   (request_ids_increasing _).2 0 1 (by norm_num) (by norm_num) (by norm_num [U64_MOD])⟩

/-- C8 (counterexample): the claim's unbounded strict monotonicity fails —
after `2 ^ 64` builder calls the `AtomicU64` counter has wrapped, so the id
trace of `2 ^ 64` detect calls is not strictly increasing (its last id is 0,
its second-to-last `2 ^ 64 - 1`). -/
theorem request_ids_wrap :
    ¬ List.Pairwise (fun a b : Nat => a < b)
        (assignedIds (List.replicate U64_MOD (DFCommand.detectCmd "f.png" none)) 1) := by
  intro hp
  have h1 : (1 : Nat) < U64_MOD := by norm_num [U64_MOD]
  have hcl : assignedIds (List.replicate U64_MOD (DFCommand.detectCmd "f.png" none)) 1 =
      (List.range U64_MOD).map (fun i => (1 + i) % U64_MOD) := by
    rw [assignedIds_closed _ 1 h1, List.length_replicate]
  rw [hcl, List.pairwise_iff_get] at hp
  have hlen : ((List.range U64_MOD).map (fun i => (1 + i) % U64_MOD)).length = U64_MOD := by
    simp
  have hia : U64_MOD - 2 < ((List.range U64_MOD).map (fun i => (1 + i) % U64_MOD)).length := by
    rw [hlen]; omega
  have hib : U64_MOD - 1 < ((List.range U64_MOD).map (fun i => (1 + i) % U64_MOD)).length := by
    rw [hlen]; omega
  have hlt := hp ⟨U64_MOD - 2, hia⟩ ⟨U64_MOD - 1, hib⟩ (by simp only [Fin.mk_lt_mk]; omega)
  have ea : ((List.range U64_MOD).map (fun i => (1 + i) % U64_MOD)).get ⟨U64_MOD - 2, hia⟩ =
      U64_MOD - 1 := by
    simp only [List.get_eq_getElem, List.getElem_map, List.getElem_range]
    have e1 : 1 + (U64_MOD - 2) = U64_MOD - 1 := by omega
    rw [e1, Nat.mod_eq_of_lt (by omega)]
  have eb : ((List.range U64_MOD).map (fun i => (1 + i) % U64_MOD)).get ⟨U64_MOD - 1, hib⟩ =
      0 := by
    simp only [List.get_eq_getElem, List.getElem_map, List.getElem_range]
    have e2 : 1 + (U64_MOD - 1) = U64_MOD := by omega
    rw [e2, Nat.mod_self]
  rw [ea, eb] at hlt
  exact Nat.not_lt_zero _ hlt

end TauriApp
